import Mathlib

/-!
Verification of the csv-stats ANOVA/reporting pipeline.

A shallow embedding of `csv_stats/anova.py` (one-way and two-way ANOVA
result assembly) and `csvstats/utils/save_stats.py` (PDF/JSON rendering
and the save dispatcher).  Pure data manipulation is translated directly;
calls into the external statistics library (`ols` model fitting,
`anova_lm`, the normality and variance-homogeneity tests, summary
statistics from a sibling module) are passed in as parameters, since the
repository treats them as external capabilities.  File-system effects
(files written, the temporary plot image) are tracked explicitly in the
returned outcome records.
-/

namespace CsvStats

/-- A scalar cell value of a table column (numeric or categorical).
Machine floats are modelled as rationals. -/
inductive Value where
  | str : String → Value
  | num : ℚ → Value
deriving DecidableEq, Repr

/-- Python `str(v)`, as used by `.astype(str)` on a column. -/
def Value.pyStr : Value → String
  | .str s => s
  | .num q => toString q

/-- A pandas DataFrame: ordered named columns, rows positionally aligned. -/
structure Table where
  cols : List (String × List Value)
deriving DecidableEq, Repr

/-- `data[name]`: look up a column by name. `none` models the KeyError /
formula-evaluation failure on a missing column. -/
def Table.col (t : Table) (name : String) : Option (List Value) :=
  (t.cols.find? (fun c => c.1 == name)).map (·.2)

/-- The column names of the table, in order. -/
def Table.colNames (t : Table) : List String := t.cols.map (·.1)

/-- `len(data)`: the number of rows (length of the first column;
tables are rectangular by the data-model invariant). -/
def Table.nRows (t : Table) : ℕ :=
  match t.cols with
  | [] => 0
  | c :: _ => c.2.length

/-- `data[name] = vs`: pandas column assignment — replaces the column in
place when the name already exists, otherwise appends a new column. -/
def Table.setCol (t : Table) (name : String) (vs : List Value) : Table :=
  if t.colNames.contains name then
    ⟨t.cols.map (fun c => if c.1 == name then (name, vs) else c)⟩
  else
    ⟨t.cols ++ [(name, vs)]⟩

/-- `len(data[group_column].unique())`: the number of distinct values in a
column. -/
def nLevels (gs : List Value) : ℕ := gs.dedup.length

/-- Python's `round` to an integer: round-half-to-even (banker's
rounding). -/
def pyRoundHalfEven (x : ℚ) : ℤ :=
  let f := ⌊x⌋
  let r := x - f
  if r < 1/2 then f
  else if 1/2 < r then f + 1
  else if f % 2 = 0 then f else f + 1

/-- Python's `round(x, 4)`: round to 4 decimal places. -/
def pyRound4 (x : ℚ) : ℚ := (pyRoundHalfEven (x * 10^4) : ℚ) / 10^4

theorem pyRoundHalfEven_nonneg {x : ℚ} (hx : 0 ≤ x) : 0 ≤ pyRoundHalfEven x := by
  unfold pyRoundHalfEven
  have hf : (0 : ℤ) ≤ ⌊x⌋ := Int.floor_nonneg.mpr hx
  dsimp only
  split
  · exact hf
  · split
    · omega
    · split <;> omega

theorem pyRoundHalfEven_le {x : ℚ} {n : ℤ} (hx : x ≤ n) : pyRoundHalfEven x ≤ n := by
  have hf : ⌊x⌋ ≤ n := by
    have h := Int.floor_le_floor hx
    simpa using h
  unfold pyRoundHalfEven
  dsimp only
  split
  · exact hf
  next h1 =>
    have hge : (1 : ℚ)/2 ≤ x - ⌊x⌋ := le_of_not_lt h1
    have hZ : ⌊x⌋ < n := by
      have hq : (⌊x⌋ : ℚ) + 1/2 ≤ (n : ℚ) := by linarith
      have : (⌊x⌋ : ℚ) < n := by linarith
      exact_mod_cast this
    split
    · omega
    · split <;> omega

/-- `pyRound4` stays within `[0, 1]` on inputs in `[0, 1]`. -/
theorem pyRound4_mem_unit {p : ℚ} (h0 : 0 ≤ p) (h1 : p ≤ 1) :
    0 ≤ pyRound4 p ∧ pyRound4 p ≤ 1 := by
  unfold pyRound4
  have hx0 : (0 : ℚ) ≤ p * 10^4 := by positivity
  have hx1 : p * 10^4 ≤ ((10^4 : ℤ) : ℚ) := by push_cast; nlinarith
  have hlo := pyRoundHalfEven_nonneg hx0
  have hhi := pyRoundHalfEven_le hx1
  constructor
  · have : (0 : ℚ) ≤ (pyRoundHalfEven (p * 10^4) : ℚ) := by exact_mod_cast hlo
    positivity
  · rw [div_le_one (by norm_num)]
    exact_mod_cast hhi

/-- `pyRound4 p` is an integer multiple of `1/10^4` (it has exactly four
decimal places). -/
theorem pyRound4_four_decimals (p : ℚ) :
    ∃ k : ℤ, pyRound4 p = (k : ℚ) / 10^4 :=
  ⟨pyRoundHalfEven (p * 10^4), rfl⟩

/-! ## Result values and error taxonomy -/

/-- A value of the result mapping built by the ANOVA entry points:
numbers, integers, strings and nested dictionaries (modelled as ordered
key/value lists, matching Python dict insertion order). -/
inductive RVal where
  | num : ℚ → RVal
  | int : ℤ → RVal
  | str : String → RVal
  | dict : List (String × RVal) → RVal
deriving Repr

/-- `d[k]` on a result dictionary: the first value bound to key `k`. -/
def lookupR (kvs : List (String × RVal)) (k : String) : Option RVal :=
  (kvs.find? (fun kv => kv.1 == k)).map (·.2)

/-- Runtime errors the embedded code can raise.  `columnNotFound` is the
error named by the spec's taxonomy; it is included only so claims about it
can be stated — no code path in the repository constructs it. -/
inductive PyErr where
  | patsyError : String → PyErr
  | keyError : String → PyErr
  | typeError : String → PyErr
  | unboundLocalError : String → PyErr
  | renderError : String → PyErr
  | columnNotFound : String → PyErr
deriving DecidableEq, Repr

/-- Whether an error is the spec's `ColumnNotFound` error. -/
def PyErr.isColumnNotFound : PyErr → Bool
  | .columnNotFound _ => true
  | _ => false

/-! ## `save_stats.py` -/

/-- Python `filename.endswith(suffix)`, over the underlying character
list. -/
def strSuffix (s suffix : String) : Bool := suffix.data.isSuffixOf s.data

/-- The `plot_data` dict passed to `dict_to_pdf`: per-group means and
standard deviations and an optional explicit x-range. -/
structure PlotData where
  means : List (String × ℚ)
  std_devs : List (String × ℚ)
  x_range : Option (ℚ × ℚ)
deriving DecidableEq, Repr

/-- Python `min` over a list (the empty case never arises on the
modelled paths; `min([])` would raise). -/
def listMin : List ℚ → ℚ
  | [] => 0
  | x :: xs => xs.foldl min x

/-- Python `max` over a list. -/
def listMax : List ℚ → ℚ
  | [] => 0
  | x :: xs => xs.foldl max x

/-- The shared x-axis range computed in `dict_to_pdf`:
`x_min = min(all_means) - 4 * max(all_stds)`,
`x_max = max(all_means) + 4 * max(all_stds)` when no explicit range is
given, else the supplied range. -/
def computeXRange (pd : PlotData) : ℚ × ℚ :=
  match pd.x_range with
  | some r => r
  | none =>
    let all_means := pd.means.map (·.2)
    let all_stds := pd.std_devs.map (·.2)
    (listMin all_means - 4 * listMax all_stds,
     listMax all_means + 4 * listMax all_stds)

/-- What the spec's words prescribe for the shared range: smallest
`mean − 4·std` to largest `mean + 4·std` across groups (per-group
pairing).  Stated only to compare against `computeXRange`. -/
def specXRange (pd : PlotData) : ℚ × ℚ :=
  match pd.x_range with
  | some r => r
  | none =>
    let ms := pd.means.map (·.2)
    let ss := pd.std_devs.map (·.2)
    (listMin (List.zipWith (fun m s => m - 4 * s) ms ss),
     listMax (List.zipWith (fun m s => m + 4 * s) ms ss))

/-- Outcome of a `dict_to_pdf` call: the returned value or raised error,
the files successfully written (name, content), whether the temporary
plot image remains on disk, and the x-range used for the plot page. -/
structure PdfOutcome where
  ret : Except PyErr Unit
  writes : List (String × String)
  tempLeft : Bool
  xRangeUsed : Option (ℚ × ℚ)
deriving Repr

/-- `dict_to_pdf(data, plot_data, filename)`.  The canvas text layout is
abstracted to the opaque content `"PDF"`; the file is only written by the
final `c.save()`.  `plotFails` models the external plotting/embedding
calls (`plt.savefig` / `c.drawImage`) raising inside the temp-file block:
the `os.unlink` on line 114 is not in a `try/finally`, so on that path the
temporary image (created with `delete=False`) is left on disk and the
canvas is never saved. -/
def dict_to_pdf (data : List (String × RVal)) (plot_data : Option PlotData)
    (filename : Option String) (plotFails : Bool) : PdfOutcome :=
  match filename with
  | none => ⟨.ok (), [], false, none⟩
  | some fn =>
    match plot_data with
    | none => ⟨.ok (), [(fn, "PDF")], false, none⟩
    | some pd =>
      let xr := computeXRange pd
      if plotFails then ⟨.error (.renderError "plot"), [], true, some xr⟩
      else ⟨.ok (), [(fn, "PDF")], false, some xr⟩

mutual

/-- `convert_types`: recursively convert library scalar wrappers to native
values.  Scalars are already native in this model, so leaves are
unchanged and dictionaries recurse. -/
def convertTypes : RVal → RVal
  | .dict kvs => .dict (convertTypesKVs kvs)
  | v => v

/-- `convert_types` over the entries of a dictionary. -/
def convertTypesKVs : List (String × RVal) → List (String × RVal)
  | [] => []
  | (k, v) :: rest => (k, convertTypes v) :: convertTypesKVs rest

end

/-- Read the per-group rational values out of a `{'mean': {...}}`-style
sub-dictionary. -/
def numEntries : List (String × RVal) → Option (List (String × ℚ))
  | [] => some []
  | (k, .num q) :: rest => (numEntries rest).map (fun l => (k, q) :: l)
  | _ => none

/-- `get_plot_data(summary_stats, render_plot)`: `None` when plotting is
disabled, else the means and std_devs read from
`summary_stats['grouped']['mean']` / `['std_dev']` (KeyError when
absent). -/
def get_plot_data (summary_stats : RVal) (render_plot : Bool) :
    Except PyErr (Option PlotData) :=
  if !render_plot then .ok none
  else
    match summary_stats with
    | .dict kvs =>
      match lookupR kvs "grouped" with
      | some (.dict g) =>
        match lookupR g "mean", lookupR g "std_dev" with
        | some (.dict ms), some (.dict ss) =>
          match numEntries ms, numEntries ss with
          | some means, some stds => .ok (some ⟨means, stds, none⟩)
          | _, _ => .error (.typeError "plot data values")
        | none, _ => .error (.keyError "mean")
        | _, none => .error (.keyError "std_dev")
        | _, _ => .error (.typeError "plot data")
      | some _ => .error (.typeError "grouped")
      | none => .error (.keyError "grouped")
    | _ => .error (.typeError "summary_stats")

/-- Outcome of `dict_to_json`: the raised error (or returned string) and
the files on disk afterwards (name, content). -/
structure JsonOutcome where
  ret : Except PyErr String
  files : List (String × String)
deriving Repr

/-- `dict_to_json(result, filename)`: `open(filename, 'w')` truncates the
destination to empty, then `json.dump(f, result)` is called with its
arguments swapped — it tries to serialize the file object, raising
`TypeError` before anything is written.  The `str_result` computed by the
first `json.dumps` is never returned because of the exception; the file
is left empty. -/
def dict_to_json (result : List (String × RVal)) (filename : String) :
    JsonOutcome :=
  ⟨.error (.typeError "Object of type TextIOWrapper is not JSON serializable"),
   [(filename, "")]⟩

/-- What `save_handler` hands back to its caller. -/
inductive SaveRet where
  | dict : List (String × RVal) → SaveRet
  | str : String → SaveRet
  | pyNone : SaveRet
deriving Repr

/-- Outcome of a `save_handler` call. -/
structure SaveOutcome where
  ret : Except PyErr SaveRet
  writes : List (String × String)
  tempLeft : Bool
deriving Repr

/-- `save_handler(result, filename, render_plot)`: dispatch on the
filename suffix.  `None` returns the result unchanged; `.pdf` extracts
plot data from `converted_result["summary_statistics"]` and calls
`dict_to_pdf`; `.json` calls `dict_to_json`; any other suffix reaches
`return returned` with `returned` never assigned (UnboundLocalError). -/
def save_handler (result : List (String × RVal)) (filename : Option String)
    (render_plot : Bool) (plotFails : Bool) : SaveOutcome :=
  match filename with
  | none => ⟨.ok (.dict result), [], false⟩
  | some fn =>
    let converted := convertTypesKVs result
    if strSuffix fn ".pdf" then
      match lookupR converted "summary_statistics" with
      | none => ⟨.error (.keyError "summary_statistics"), [], false⟩
      | some ss =>
        match get_plot_data ss render_plot with
        | .error e => ⟨.error e, [], false⟩
        | .ok pd =>
          let out := dict_to_pdf converted pd (some fn) plotFails
          ⟨out.ret.map (fun _ => SaveRet.pyNone), out.writes, out.tempLeft⟩
    else if strSuffix fn ".json" then
      let jo := dict_to_json converted fn
      ⟨jo.ret.map SaveRet.str, jo.files, false⟩
    else
      ⟨.error (.unboundLocalError "returned"), [], false⟩

/-! ## `anova.py` -/

/-- Outputs of the external statistics library and sibling modules for a
one-way call: the F-statistic and p-value from `anova_lm`, and the
summary-statistics / assumption-test results, all consumed as opaque
values by the assembly code. -/
structure Extern1 where
  F : ℚ
  p : ℚ
  summary : RVal
  normality : RVal
  homogeneity : RVal

/-- Outcome of `anova1way`: the returned result dictionary (or raised
error) and the files written. -/
structure Anova1Outcome where
  ret : Except PyErr (List (String × RVal))
  writes : List (String × String)

/-- `anova1way(data, group_column, data_column)` on an in-memory table
(`load_data_from_path` passes a DataFrame through).  Evaluating the
formula `data_column ~ C(group_column)` against a table that lacks either
column raises a formula-evaluation (patsy) error.  On success the result
dictionary is assembled in insertion order and `dict_to_pdf` is called
with the hard-coded filename `'anova1way_results.pdf'` and no plot
data. -/
def anova1way (t : Table) (group_column data_column : String)
    (ext : Extern1) : Anova1Outcome :=
  match t.col data_column, t.col group_column with
  | none, _ => ⟨.error (.patsyError data_column), []⟩
  | some _, none => ⟨.error (.patsyError group_column), []⟩
  | some _, some gs =>
    let df_between : ℤ := (nLevels gs : ℤ) - 1
    let df_within : ℤ := (t.nRows : ℤ) - (nLevels gs : ℤ)
    let result : List (String × RVal) :=
      [("F", .num ext.F),
       ("p", .num (pyRound4 ext.p)),
       ("df_between", .int df_between),
       ("df_within", .int df_within),
       ("summary_stats", ext.summary),
       ("normality_test", ext.normality),
       ("homogeneity_of_variance_test", ext.homogeneity)]
    let pdfOut := dict_to_pdf result none (some "anova1way_results.pdf") false
    ⟨.ok result, pdfOut.writes⟩

/-- The derived interaction column name `f"{group_column1}_{group_column2}"`. -/
def interactionColumnName (group_column1 group_column2 : String) : String :=
  group_column1 ++ "_" ++ group_column2

/-- One row's interaction group key:
`data[g1].astype(str) + '_' + data[g2].astype(str)`. -/
def groupKey (a b : Value) : String := a.pyStr ++ "_" ++ b.pyStr

/-- The derived interaction column, element-wise over the two factor
columns. -/
def interactionValues (xs ys : List Value) : List Value :=
  List.zipWith (fun a b => Value.str (groupKey a b)) xs ys

/-- External-library outputs for a two-way call. -/
structure Extern2 where
  F1 : ℚ
  p1 : ℚ
  F2 : ℚ
  p2 : ℚ
  Fint : ℚ
  pint : ℚ
  summary1 : RVal
  summary2 : RVal
  summaryInt : RVal
  normality : RVal
  homogeneity : RVal

/-- Outcome of `anova2way`: the result (or error) and the mutated table
(the interaction column is assigned into `data`). -/
structure Anova2Outcome where
  ret : Except PyErr (List (String × RVal))
  table : Table

/-- `anova2way(data, group_column1, group_column2, data_column)`.  After
fitting, the interaction column named `f"{g1}_{g2}"` is assigned into the
table; the result dictionary is built in insertion order with
`main_effects` and `interaction` sub-dictionaries. -/
def anova2way (t : Table) (group_column1 group_column2 data_column : String)
    (ext : Extern2) : Anova2Outcome :=
  match t.col data_column, t.col group_column1, t.col group_column2 with
  | none, _, _ => ⟨.error (.patsyError data_column), t⟩
  | some _, none, _ => ⟨.error (.patsyError group_column1), t⟩
  | some _, some _, none => ⟨.error (.patsyError group_column2), t⟩
  | some _, some xs, some ys =>
    let icol := interactionColumnName group_column1 group_column2
    let t2 := t.setCol icol (interactionValues xs ys)
    let result : List (String × RVal) :=
      [("main_effects", .dict
          [(group_column1, .dict [("F", .num ext.F1), ("p", .num (pyRound4 ext.p1))]),
           (group_column2, .dict [("F", .num ext.F2), ("p", .num (pyRound4 ext.p2))])]),
       ("interaction", .dict [("F", .num ext.Fint), ("p", .num (pyRound4 ext.pint))]),
       ("summary_stats_" ++ group_column1, ext.summary1),
       ("summary_stats_" ++ group_column2, ext.summary2),
       ("summary_stats_interaction", ext.summaryInt),
       ("normality_test", ext.normality),
       ("homogeneity_of_variance_test", ext.homogeneity)]
    ⟨.ok result, t2⟩

/-! ## Shared concrete instances (the spec's scenario: groups A=[1,2,3],
B=[4,5,6] on a single factor column) -/

/-- Group labels of the scenario table. -/
def exGroups : List Value :=
  [.str "A", .str "A", .str "A", .str "B", .str "B", .str "B"]

/-- Data values of the scenario table. -/
def exValues : List Value :=
  [.num 1, .num 2, .num 3, .num 4, .num 5, .num 6]

/-- The scenario table with factor column `"g"` and value column `"v"`. -/
def exTable : Table := ⟨[("g", exGroups), ("v", exValues)]⟩

/-- Concrete stand-ins for the external one-way library outputs. -/
def exExtern1 : Extern1 :=
  ⟨9/2, 1/20, .dict [], .dict [], .dict []⟩

/-! ## C1: one-way degrees of freedom -/

theorem nLevels_le_length (gs : List Value) : nLevels gs ≤ gs.length :=
  List.Sublist.length_le (List.dedup_sublist gs)

/-- C1: for a table whose grouping column has at least 2 distinct levels
(each level necessarily having at least one observation), `anova1way`
succeeds with `df_between` equal to the number of distinct levels minus 1
and `df_within` equal to the number of rows minus the number of distinct
levels, both non-negative integers. -/
theorem anova1way_degrees_of_freedom (t : Table) (g v : String)
    (ext : Extern1) (gs : List Value)
    (hg : t.col g = some gs) (hv : (t.col v).isSome = true)
    (hrect : gs.length = t.nRows) (hlev : 2 ≤ nLevels gs) :
    ∃ res, (anova1way t g v ext).ret = .ok res ∧
      lookupR res "df_between" = some (.int ((nLevels gs : ℤ) - 1)) ∧
      lookupR res "df_within" =
        some (.int ((t.nRows : ℤ) - (nLevels gs : ℤ))) ∧
      0 ≤ (nLevels gs : ℤ) - 1 ∧
      0 ≤ (t.nRows : ℤ) - (nLevels gs : ℤ) := by
  obtain ⟨vs, hv'⟩ := Option.isSome_iff_exists.mp hv
  have hle : nLevels gs ≤ t.nRows := hrect ▸ nLevels_le_length gs
  refine ⟨[("F", .num ext.F),
       ("p", .num (pyRound4 ext.p)),
       ("df_between", .int ((nLevels gs : ℤ) - 1)),
       ("df_within", .int ((t.nRows : ℤ) - (nLevels gs : ℤ))),
       ("summary_stats", ext.summary),
       ("normality_test", ext.normality),
       ("homogeneity_of_variance_test", ext.homogeneity)],
     ?_, rfl, rfl, by omega, by omega⟩
  simp only [anova1way, hv', hg]

/-- C1 witness: the spec's scenario table has `df_between = 1` and
`df_within = 4`. -/
theorem anova1way_degrees_of_freedom_witness :
    ∃ res, (anova1way exTable "g" "v" exExtern1).ret = .ok res ∧
      lookupR res "df_between" = some (.int ((nLevels exGroups : ℤ) - 1)) ∧
      lookupR res "df_within" =
        some (.int ((exTable.nRows : ℤ) - (nLevels exGroups : ℤ))) ∧
      0 ≤ (nLevels exGroups : ℤ) - 1 ∧
      0 ≤ (exTable.nRows : ℤ) - (nLevels exGroups : ℤ) :=
  anova1way_degrees_of_freedom exTable "g" "v" exExtern1 exGroups
    rfl rfl rfl (by decide)

/-! ## C9: F/p/df numeric conventions -/

/-- A second factor layout for two-way calls: factor columns `"a"` and
`"b"` over the same six rows. -/
def exTable2 : Table :=
  ⟨[("a", [.str "x", .str "x", .str "y", .str "y", .str "x", .str "y"]),
    ("b", [.str "u", .str "w", .str "u", .str "w", .str "u", .str "w"]),
    ("v", exValues)]⟩

/-- Concrete stand-ins for the external two-way library outputs. -/
def exExtern2 : Extern2 :=
  ⟨7/2, 3/100, 5/4, 27/100, 1/10, 19/20,
   .dict [], .dict [], .dict [], .dict [], .dict []⟩

/-- C9: in every successful one-way or two-way result, assuming the
statistics library's guarantees on its own outputs (F ≥ 0 and p ∈ [0,1]),
each reported F-statistic is stored unrounded and is ≥ 0, each reported
p-value is the 4-decimal rounding of the library p-value and lies in
[0,1] as an integer multiple of 1/10⁴, and the one-way degrees of freedom
are stored unrounded. -/
theorem anova_reported_F_p_df_conventions :
    (∀ (t : Table) (g v : String) (ext : Extern1) (gs : List Value),
      t.col g = some gs → (t.col v).isSome = true →
      0 ≤ ext.F → 0 ≤ ext.p → ext.p ≤ 1 →
      ∃ res, (anova1way t g v ext).ret = .ok res ∧
        lookupR res "F" = some (.num ext.F) ∧ 0 ≤ ext.F ∧
        lookupR res "p" = some (.num (pyRound4 ext.p)) ∧
        0 ≤ pyRound4 ext.p ∧ pyRound4 ext.p ≤ 1 ∧
        (∃ k : ℤ, pyRound4 ext.p = (k : ℚ) / 10^4) ∧
        lookupR res "df_between" = some (.int ((nLevels gs : ℤ) - 1)) ∧
        lookupR res "df_within" =
          some (.int ((t.nRows : ℤ) - (nLevels gs : ℤ)))) ∧
    (∀ (t : Table) (g1 g2 v : String) (ext : Extern2),
      (t.col g1).isSome = true → (t.col g2).isSome = true →
      (t.col v).isSome = true → g1 ≠ g2 →
      0 ≤ ext.F1 → 0 ≤ ext.p1 → ext.p1 ≤ 1 →
      0 ≤ ext.F2 → 0 ≤ ext.p2 → ext.p2 ≤ 1 →
      0 ≤ ext.Fint → 0 ≤ ext.pint → ext.pint ≤ 1 →
      ∃ res me, (anova2way t g1 g2 v ext).ret = .ok res ∧
        lookupR res "main_effects" = some (.dict me) ∧
        lookupR me g1 =
          some (.dict [("F", .num ext.F1), ("p", .num (pyRound4 ext.p1))]) ∧
        lookupR me g2 =
          some (.dict [("F", .num ext.F2), ("p", .num (pyRound4 ext.p2))]) ∧
        lookupR res "interaction" =
          some (.dict [("F", .num ext.Fint), ("p", .num (pyRound4 ext.pint))]) ∧
        (0 ≤ ext.F1 ∧ 0 ≤ pyRound4 ext.p1 ∧ pyRound4 ext.p1 ≤ 1 ∧
          ∃ k : ℤ, pyRound4 ext.p1 = (k : ℚ) / 10^4) ∧
        (0 ≤ ext.F2 ∧ 0 ≤ pyRound4 ext.p2 ∧ pyRound4 ext.p2 ≤ 1 ∧
          ∃ k : ℤ, pyRound4 ext.p2 = (k : ℚ) / 10^4) ∧
        (0 ≤ ext.Fint ∧ 0 ≤ pyRound4 ext.pint ∧ pyRound4 ext.pint ≤ 1 ∧
          ∃ k : ℤ, pyRound4 ext.pint = (k : ℚ) / 10^4)) := by
  constructor
  · intro t g v ext gs hg hv hF hp0 hp1
    obtain ⟨vs, hv'⟩ := Option.isSome_iff_exists.mp hv
    obtain ⟨hr0, hr1⟩ := pyRound4_mem_unit hp0 hp1
    refine ⟨[("F", .num ext.F),
         ("p", .num (pyRound4 ext.p)),
         ("df_between", .int ((nLevels gs : ℤ) - 1)),
         ("df_within", .int ((t.nRows : ℤ) - (nLevels gs : ℤ))),
         ("summary_stats", ext.summary),
         ("normality_test", ext.normality),
         ("homogeneity_of_variance_test", ext.homogeneity)],
       ?_, rfl, hF, rfl, hr0, hr1, pyRound4_four_decimals ext.p, rfl, rfl⟩
    simp only [anova1way, hv', hg]
  · intro t g1 g2 v ext h1 h2 hv hne hF1 hp10 hp11 hF2 hp20 hp21 hFi hpi0 hpi1
    obtain ⟨xs, h1'⟩ := Option.isSome_iff_exists.mp h1
    obtain ⟨ys, h2'⟩ := Option.isSome_iff_exists.mp h2
    obtain ⟨vs, hv'⟩ := Option.isSome_iff_exists.mp hv
    obtain ⟨ha0, ha1⟩ := pyRound4_mem_unit hp10 hp11
    obtain ⟨hb0, hb1⟩ := pyRound4_mem_unit hp20 hp21
    obtain ⟨hc0, hc1⟩ := pyRound4_mem_unit hpi0 hpi1
    have hbeq : (g1 == g2) = false := beq_false_of_ne hne
    refine ⟨[("main_effects", .dict
          [(g1, .dict [("F", .num ext.F1), ("p", .num (pyRound4 ext.p1))]),
           (g2, .dict [("F", .num ext.F2), ("p", .num (pyRound4 ext.p2))])]),
       ("interaction", .dict [("F", .num ext.Fint), ("p", .num (pyRound4 ext.pint))]),
       ("summary_stats_" ++ g1, ext.summary1),
       ("summary_stats_" ++ g2, ext.summary2),
       ("summary_stats_interaction", ext.summaryInt),
       ("normality_test", ext.normality),
       ("homogeneity_of_variance_test", ext.homogeneity)],
       [(g1, .dict [("F", .num ext.F1), ("p", .num (pyRound4 ext.p1))]),
        (g2, .dict [("F", .num ext.F2), ("p", .num (pyRound4 ext.p2))])],
       ?_, ?_, ?_, ?_, ?_,
       ⟨hF1, ha0, ha1, pyRound4_four_decimals ext.p1⟩,
       ⟨hF2, hb0, hb1, pyRound4_four_decimals ext.p2⟩,
       ⟨hFi, hc0, hc1, pyRound4_four_decimals ext.pint⟩⟩
    · simp only [anova2way, hv', h1', h2']
    · rfl
    · simp [lookupR, List.find?]
    · simp [lookupR, List.find?, hbeq]
    · rfl

/-- C9 witness: concrete one-way and two-way calls on the scenario
tables satisfy the reported-value conventions. -/
theorem anova_reported_F_p_df_conventions_witness :
    (∃ res, (anova1way exTable "g" "v" exExtern1).ret = .ok res ∧
        lookupR res "F" = some (.num exExtern1.F) ∧ 0 ≤ exExtern1.F ∧
        lookupR res "p" = some (.num (pyRound4 exExtern1.p)) ∧
        0 ≤ pyRound4 exExtern1.p ∧ pyRound4 exExtern1.p ≤ 1 ∧
        (∃ k : ℤ, pyRound4 exExtern1.p = (k : ℚ) / 10^4) ∧
        lookupR res "df_between" =
          some (.int ((nLevels exGroups : ℤ) - 1)) ∧
        lookupR res "df_within" =
          some (.int ((exTable.nRows : ℤ) - (nLevels exGroups : ℤ)))) ∧
    (∃ res me, (anova2way exTable2 "a" "b" "v" exExtern2).ret = .ok res ∧
        lookupR res "main_effects" = some (.dict me) ∧
        lookupR me "a" = some (.dict
          [("F", .num exExtern2.F1), ("p", .num (pyRound4 exExtern2.p1))]) ∧
        lookupR me "b" = some (.dict
          [("F", .num exExtern2.F2), ("p", .num (pyRound4 exExtern2.p2))]) ∧
        lookupR res "interaction" = some (.dict
          [("F", .num exExtern2.Fint), ("p", .num (pyRound4 exExtern2.pint))]) ∧
        (0 ≤ exExtern2.F1 ∧ 0 ≤ pyRound4 exExtern2.p1 ∧
          pyRound4 exExtern2.p1 ≤ 1 ∧
          ∃ k : ℤ, pyRound4 exExtern2.p1 = (k : ℚ) / 10^4) ∧
        (0 ≤ exExtern2.F2 ∧ 0 ≤ pyRound4 exExtern2.p2 ∧
          pyRound4 exExtern2.p2 ≤ 1 ∧
          ∃ k : ℤ, pyRound4 exExtern2.p2 = (k : ℚ) / 10^4) ∧
        (0 ≤ exExtern2.Fint ∧ 0 ≤ pyRound4 exExtern2.pint ∧
          pyRound4 exExtern2.pint ≤ 1 ∧
          ∃ k : ℤ, pyRound4 exExtern2.pint = (k : ℚ) / 10^4)) :=
  ⟨anova_reported_F_p_df_conventions.1 exTable "g" "v" exExtern1 exGroups
      rfl rfl (by norm_num [exExtern1]) (by norm_num [exExtern1])
      (by norm_num [exExtern1]),
   anova_reported_F_p_df_conventions.2 exTable2 "a" "b" "v" exExtern2
      rfl rfl rfl (by decide)
      (by norm_num [exExtern2]) (by norm_num [exExtern2]) (by norm_num [exExtern2])
      (by norm_num [exExtern2]) (by norm_num [exExtern2]) (by norm_num [exExtern2])
      (by norm_num [exExtern2]) (by norm_num [exExtern2]) (by norm_num [exExtern2])⟩

/-! ## C10: unknown destination suffix -/

/-- C10: for every non-None filename ending in neither `.pdf` nor
`.json`, `save_handler` raises an UnboundLocalError (the `returned`
variable is never assigned) instead of returning a result. -/
theorem save_handler_unknown_suffix_unbound (result : List (String × RVal))
    (fn : String) (render_plot plotFails : Bool)
    (hp : strSuffix fn ".pdf" = false) (hj : strSuffix fn ".json" = false) :
    (save_handler result (some fn) render_plot plotFails).ret =
      .error (.unboundLocalError "returned") := by
  simp [save_handler, hp, hj]

/-- C10 witness: a `.txt` destination reaches the unbound `returned`. -/
theorem save_handler_unknown_suffix_unbound_witness :
    (save_handler [("F", .num 1)] (some "results.txt") false false).ret =
      .error (.unboundLocalError "returned") :=
  save_handler_unknown_suffix_unbound [("F", .num 1)] "results.txt"
    false false rfl rfl

/-! ## C3: behaviour with no destination -/

/-- C3 counterexample: `anova1way` takes no destination argument at all,
yet every (successful) call writes the hard-coded file
`anova1way_results.pdf`: with no destination given, the one-way pipeline
still writes a file. -/
theorem anova1way_writes_without_destination :
    (anova1way exTable "g" "v" exExtern1).writes =
      [("anova1way_results.pdf", "PDF")] ∧
    (anova1way exTable "g" "v" exExtern1).writes ≠ [] :=
  ⟨rfl, by decide⟩

/-- C3 (amended): `save_handler` with a `None` filename returns the
in-memory result directly and writes nothing, and `dict_to_pdf` with a
`None` filename is a no-op; however `anova1way` itself always calls
`dict_to_pdf` with the fixed filename `anova1way_results.pdf`, so every
successful one-way call writes that file. -/
theorem renderer_noop_when_no_destination :
    (∀ (result : List (String × RVal)) (rp pf : Bool),
      save_handler result none rp pf = ⟨.ok (.dict result), [], false⟩) ∧
    (∀ (d : List (String × RVal)) (pd : Option PlotData) (pf : Bool),
      dict_to_pdf d pd none pf = ⟨.ok (), [], false, none⟩) ∧
    (∀ (t : Table) (g v : String) (ext : Extern1) (gs vs : List Value),
      t.col g = some gs → t.col v = some vs →
      (anova1way t g v ext).writes = [("anova1way_results.pdf", "PDF")]) := by
  refine ⟨fun r rp pf => rfl, fun d pd pf => rfl,
    fun t g v ext gs vs hg hv => ?_⟩
  simp only [anova1way, hg, hv]
  rfl

/-- C3 witness: the no-destination no-op and the hard-coded write on
concrete inputs. -/
theorem renderer_noop_when_no_destination_witness :
    save_handler [("F", .num 1)] none false false =
      ⟨.ok (.dict [("F", .num 1)]), [], false⟩ ∧
    (anova1way exTable "g" "v" exExtern1).writes =
      [("anova1way_results.pdf", "PDF")] :=
  ⟨renderer_noop_when_no_destination.1 [("F", .num 1)] false false,
   renderer_noop_when_no_destination.2.2 exTable "g" "v" exExtern1
     exGroups exValues rfl rfl⟩

/-! ## C2: temporary plot image cleanup -/

/-- A concrete `plot_data` dictionary. -/
def exPlotData : PlotData := ⟨[("A", 2), ("B", 5)], [("A", 1), ("B", 1)], none⟩

/-- C2: the `os.unlink` of the temporary plot image is not in a
`try/finally`, so when plot generation or embedding raises, the temporary
image (created with `delete=False`) remains on disk; it is deleted only on
the successful path. -/
theorem dict_to_pdf_temp_left_on_plot_failure :
    (dict_to_pdf [("F", .num 1)] (some exPlotData)
        (some "anova_results.pdf") true).tempLeft = true ∧
    (dict_to_pdf [("F", .num 1)] (some exPlotData)
        (some "anova_results.pdf") false).tempLeft = false :=
  ⟨rfl, rfl⟩

/-! ## C5: JSON round-trip -/

/-- C5: `dict_to_json` calls `json.dump(f, result)` with its arguments
swapped: the call raises a TypeError and the destination file, already
truncated by `open(..., 'w')`, is left empty — so writing a result and
reading it back cannot reproduce the in-memory mapping.  The error
propagates through `save_handler`'s `.json` branch. -/
theorem dict_to_json_raises_and_truncates :
    (dict_to_json [("F", .num 1)] "results.json").ret =
      .error (.typeError
        "Object of type TextIOWrapper is not JSON serializable") ∧
    (dict_to_json [("F", .num 1)] "results.json").files =
      [("results.json", "")] ∧
    (save_handler [("F", .num 1)] (some "results.json") false false).ret =
      .error (.typeError
        "Object of type TextIOWrapper is not JSON serializable") :=
  ⟨rfl, rfl, rfl⟩

/-! ## C4: result-mapping key names -/

/-- C4: the one-way producer does use exactly the documented key names,
but the downstream consumer `save_handler` reads the plot data from
`result["summary_statistics"]` — a key no ANOVA result contains — so the
PDF path fails with a KeyError instead of reading `"summary_stats"`. -/
theorem save_handler_reads_undocumented_key :
    ∃ res, (anova1way exTable "g" "v" exExtern1).ret = .ok res ∧
      res.map Prod.fst = ["F", "p", "df_between", "df_within",
        "summary_stats", "normality_test",
        "homogeneity_of_variance_test"] ∧
      lookupR res "summary_statistics" = none ∧
      (save_handler res (some "anova_results.pdf") true false).ret =
        .error (.keyError "summary_statistics") ∧
      (save_handler res (some "anova_results.pdf") false false).ret =
        .error (.keyError "summary_statistics") := by
  refine ⟨[("F", .num exExtern1.F),
       ("p", .num (pyRound4 exExtern1.p)),
       ("df_between", .int ((nLevels exGroups : ℤ) - 1)),
       ("df_within", .int ((exTable.nRows : ℤ) - (nLevels exGroups : ℤ))),
       ("summary_stats", exExtern1.summary),
       ("normality_test", exExtern1.normality),
       ("homogeneity_of_variance_test", exExtern1.homogeneity)],
     rfl, rfl, rfl, rfl, rfl⟩

/-! ## C6: the shared x-axis range of the density plot -/

theorem foldl_min_le_init (t : List ℚ) (a : ℚ) : t.foldl min a ≤ a := by
  induction t generalizing a with
  | nil => exact le_refl a
  | cons x xs ih => exact le_trans (ih (min a x)) (min_le_left a x)

theorem foldl_min_le_mem : ∀ (t : List ℚ) (a x : ℚ), x ∈ t →
    t.foldl min a ≤ x := by
  intro t
  induction t with
  | nil => intro a x hx; cases hx
  | cons y ys ih =>
    intro a x hx
    rcases List.mem_cons.mp hx with h | h
    · subst h
      exact le_trans (foldl_min_le_init ys (min a x)) (min_le_right a x)
    · exact ih (min a y) x h

theorem le_foldl_min (t : List ℚ) (a c : ℚ) (ha : c ≤ a)
    (h : ∀ x ∈ t, c ≤ x) : c ≤ t.foldl min a := by
  induction t generalizing a with
  | nil => exact ha
  | cons y ys ih =>
    exact ih (min a y) (le_min ha (h y (List.mem_cons_self y ys)))
      (fun x hx => h x (List.mem_cons_of_mem y hx))

theorem init_le_foldl_max (t : List ℚ) (a : ℚ) : a ≤ t.foldl max a := by
  induction t generalizing a with
  | nil => exact le_refl a
  | cons x xs ih => exact le_trans (le_max_left a x) (ih (max a x))

theorem mem_le_foldl_max : ∀ (t : List ℚ) (a x : ℚ), x ∈ t →
    x ≤ t.foldl max a := by
  intro t
  induction t with
  | nil => intro a x hx; cases hx
  | cons y ys ih =>
    intro a x hx
    rcases List.mem_cons.mp hx with h | h
    · subst h
      exact le_trans (le_max_right a x) (init_le_foldl_max ys (max a x))
    · exact ih (max a y) x h

theorem foldl_max_le (t : List ℚ) (a c : ℚ) (ha : a ≤ c)
    (h : ∀ x ∈ t, x ≤ c) : t.foldl max a ≤ c := by
  induction t generalizing a with
  | nil => exact ha
  | cons y ys ih =>
    exact ih (max a y) (max_le ha (h y (List.mem_cons_self y ys)))
      (fun x hx => h x (List.mem_cons_of_mem y hx))

theorem listMin_le_of_mem {l : List ℚ} {x : ℚ} (hx : x ∈ l) :
    listMin l ≤ x := by
  cases l with
  | nil => cases hx
  | cons a t =>
    rcases List.mem_cons.mp hx with h | h
    · subst h; exact foldl_min_le_init t x
    · exact foldl_min_le_mem t a x h

theorem le_listMin {l : List ℚ} {c : ℚ} (hne : l ≠ [])
    (h : ∀ x ∈ l, c ≤ x) : c ≤ listMin l := by
  cases l with
  | nil => exact absurd rfl hne
  | cons a t =>
    exact le_foldl_min t a c (h a (List.mem_cons_self a t))
      (fun x hx => h x (List.mem_cons_of_mem a hx))

theorem le_listMax_of_mem {l : List ℚ} {x : ℚ} (hx : x ∈ l) :
    x ≤ listMax l := by
  cases l with
  | nil => cases hx
  | cons a t =>
    rcases List.mem_cons.mp hx with h | h
    · subst h; exact init_le_foldl_max t x
    · exact mem_le_foldl_max t a x h

theorem listMax_le {l : List ℚ} {c : ℚ} (hne : l ≠ [])
    (h : ∀ x ∈ l, x ≤ c) : listMax l ≤ c := by
  cases l with
  | nil => exact absurd rfl hne
  | cons a t =>
    exact foldl_max_le t a c (h a (List.mem_cons_self a t))
      (fun x hx => h x (List.mem_cons_of_mem a hx))

theorem zipWith_lower_bound (a b : ℚ) (ms ss : List ℚ)
    (hm : ∀ m ∈ ms, a ≤ m) (hs : ∀ s ∈ ss, s ≤ b) :
    ∀ x ∈ List.zipWith (fun m s => m - 4 * s) ms ss, a - 4 * b ≤ x := by
  induction ms generalizing ss with
  | nil => intro x hx; simp at hx
  | cons m mt ih =>
    intro x hx
    cases ss with
    | nil => simp at hx
    | cons s st =>
      rcases List.mem_cons.mp hx with h | h
      · have h1 : a ≤ m := hm m (List.mem_cons_self m mt)
        have h2 : s ≤ b := hs s (List.mem_cons_self s st)
        rw [h]
        show a - 4 * b ≤ m - 4 * s
        linarith
      · exact ih st (fun y hy => hm y (List.mem_cons_of_mem m hy))
          (fun y hy => hs y (List.mem_cons_of_mem s hy)) x h

theorem zipWith_upper_bound (a b : ℚ) (ms ss : List ℚ)
    (hm : ∀ m ∈ ms, m ≤ a) (hs : ∀ s ∈ ss, s ≤ b) :
    ∀ x ∈ List.zipWith (fun m s => m + 4 * s) ms ss, x ≤ a + 4 * b := by
  induction ms generalizing ss with
  | nil => intro x hx; simp at hx
  | cons m mt ih =>
    intro x hx
    cases ss with
    | nil => simp at hx
    | cons s st =>
      rcases List.mem_cons.mp hx with h | h
      · have h1 : m ≤ a := hm m (List.mem_cons_self m mt)
        have h2 : s ≤ b := hs s (List.mem_cons_self s st)
        rw [h]
        show m + 4 * s ≤ a + 4 * b
        linarith
      · exact ih st (fun y hy => hm y (List.mem_cons_of_mem m hy))
          (fun y hy => hs y (List.mem_cons_of_mem s hy)) x h

/-- The `plot_data` of C6's counterexample: group A has mean 0 and std 1,
group B has mean 10 and std 5. -/
def exPlotData6 : PlotData := ⟨[("A", 0), ("B", 10)], [("A", 1), ("B", 5)], none⟩

/-- C6 counterexample: without an explicit range, `dict_to_pdf` uses
`[min(means) − 4·max(stds), max(means) + 4·max(stds)]` — here
`(-20, 30)` — which differs from the spec's per-group envelope
`[min over groups of (mean − 4·std), max over groups of (mean + 4·std)]`
— here `(-10, 30)`. -/
theorem xrange_differs_from_per_group_envelope :
    (dict_to_pdf [("F", .num 1)] (some exPlotData6)
        (some "anova_results.pdf") false).xRangeUsed =
      some (computeXRange exPlotData6) ∧
    computeXRange exPlotData6 = (-20, 30) ∧
    specXRange exPlotData6 = (-10, 30) ∧
    computeXRange exPlotData6 ≠ specXRange exPlotData6 := by
  have h1 : computeXRange exPlotData6 = (-20, 30) := by
    simp only [computeXRange, specXRange, exPlotData6, listMin, listMax,
      List.map, List.foldl, min_def, max_def]
    norm_num
  have h2 : specXRange exPlotData6 = (-10, 30) := by
    simp only [computeXRange, specXRange, exPlotData6, listMin, listMax,
      List.map, List.zipWith, List.foldl, min_def, max_def]
    norm_num
  refine ⟨rfl, h1, h2, ?_⟩
  rw [h1, h2]
  intro h
  have := congrArg Prod.fst h
  norm_num at this

/-- C6 (amended): without an explicit range the shared x-axis range is
`[min(all means) − 4·max(all stds), max(all means) + 4·max(all stds)]`;
this range contains the spec's per-group envelope (every curve's
`mean ± 4·std` span fits inside it); an explicit range is used exactly as
given. -/
theorem dict_to_pdf_xrange_formula (pd : PlotData)
    (d : List (String × RVal)) (fn : String) (pf : Bool)
    (hms : pd.means ≠ []) (hlen : pd.means.length = pd.std_devs.length) :
    (pd.x_range = none →
      (dict_to_pdf d (some pd) (some fn) pf).xRangeUsed =
        some (listMin (pd.means.map (·.2)) - 4 * listMax (pd.std_devs.map (·.2)),
              listMax (pd.means.map (·.2)) + 4 * listMax (pd.std_devs.map (·.2))) ∧
      (computeXRange pd).1 ≤ (specXRange pd).1 ∧
      (specXRange pd).2 ≤ (computeXRange pd).2) ∧
    (∀ r, pd.x_range = some r →
      (dict_to_pdf d (some pd) (some fn) pf).xRangeUsed = some r) := by
  constructor
  · intro hnone
    have hms' : pd.means.map (·.2) ≠ [] := by
      intro h
      exact hms (List.map_eq_nil_iff.mp h)
    have hmlen : (pd.means.map (·.2)).length ≠ 0 := by
      intro h
      exact hms' (List.length_eq_zero.mp h)
    have hlen' : (pd.means.map (·.2)).length =
        (pd.std_devs.map (·.2)).length := by
      simp [hlen]
    have hz : List.zipWith (fun m s => m - 4 * s)
        (pd.means.map (·.2)) (pd.std_devs.map (·.2)) ≠ [] := by
      intro h
      have hzl := congrArg List.length h
      rw [List.length_zipWith, List.length_nil, ← hlen', Nat.min_self] at hzl
      exact hmlen hzl
    have hz2 : List.zipWith (fun m s => m + 4 * s)
        (pd.means.map (·.2)) (pd.std_devs.map (·.2)) ≠ [] := by
      intro h
      have hzl := congrArg List.length h
      rw [List.length_zipWith, List.length_nil, ← hlen', Nat.min_self] at hzl
      exact hmlen hzl
    refine ⟨?_, ?_, ?_⟩
    · cases pf <;> simp [dict_to_pdf, computeXRange, hnone]
    · simp only [computeXRange, specXRange, hnone]
      exact le_listMin hz (zipWith_lower_bound _ _ _ _
        (fun m hm => listMin_le_of_mem hm)
        (fun s hs => le_listMax_of_mem hs) )
    · simp only [computeXRange, specXRange, hnone]
      exact listMax_le hz2 (zipWith_upper_bound _ _ _ _
        (fun m hm => le_listMax_of_mem hm)
        (fun s hs => le_listMax_of_mem hs) )
  · intro r hr
    cases pf <;> simp [dict_to_pdf, computeXRange, hr]

/-- C6 witness: the amended range formula and containment evaluated on a
concrete `plot_data`. -/
theorem dict_to_pdf_xrange_formula_witness :
    (exPlotData6.x_range = none →
      (dict_to_pdf [("F", .num 1)] (some exPlotData6)
          (some "o.pdf") false).xRangeUsed =
        some (listMin (exPlotData6.means.map (·.2)) -
                4 * listMax (exPlotData6.std_devs.map (·.2)),
              listMax (exPlotData6.means.map (·.2)) +
                4 * listMax (exPlotData6.std_devs.map (·.2))) ∧
      (computeXRange exPlotData6).1 ≤ (specXRange exPlotData6).1 ∧
      (specXRange exPlotData6).2 ≤ (computeXRange exPlotData6).2) ∧
    (∀ r, exPlotData6.x_range = some r →
      (dict_to_pdf [("F", .num 1)] (some exPlotData6)
          (some "o.pdf") false).xRangeUsed = some r) :=
  dict_to_pdf_xrange_formula exPlotData6 [("F", .num 1)] "o.pdf" false
    (by decide) (by decide)

/-! ## C7: the two-way interaction GroupKey -/

/-- A table whose source columns already include a column named `a_b`. -/
def exTable7 : Table :=
  ⟨[("a", [.str "x"]), ("b", [.str "y"]),
    ("a_b", [.str "orig"]), ("v", [.num 1])]⟩

/-- C7 counterexample: for factor columns `a` and `b`, the derived name
`a_b` collides with an existing source column of `exTable7`; `anova2way`
overwrites that source column with the interaction keys and adds no new
column. -/
theorem interaction_column_name_collides :
    interactionColumnName "a" "b" = "a_b" ∧
    exTable7.colNames.contains "a_b" = true ∧
    exTable7.col "a_b" = some [.str "orig"] ∧
    (anova2way exTable7 "a" "b" "v" exExtern2).table.col "a_b" =
      some [.str "x_y"] ∧
    (anova2way exTable7 "a" "b" "v" exExtern2).table.colNames =
      exTable7.colNames :=
  ⟨rfl, rfl, rfl, rfl, rfl⟩

/-- C7 (amended): the GroupKey pairs the two stringified factor values
joined with `_`, stored under the derived name `g1_g2`; when that name
does not occur among the table's columns it is appended as a new derived
column holding the keys — but no collision avoidance exists, and on a
collision the existing column is overwritten (see the counterexample). -/
theorem interaction_groupkey_derived (t : Table) (g1 g2 : String)
    (xs ys : List Value)
    (hnc : t.colNames.contains (interactionColumnName g1 g2) = false) :
    interactionValues xs ys =
      List.zipWith (fun a b => Value.str (a.pyStr ++ "_" ++ b.pyStr)) xs ys ∧
    (t.setCol (interactionColumnName g1 g2) (interactionValues xs ys)).colNames
      = t.colNames ++ [interactionColumnName g1 g2] ∧
    (t.setCol (interactionColumnName g1 g2) (interactionValues xs ys)).col
      (interactionColumnName g1 g2) = some (interactionValues xs ys) := by
  have hmem : ¬ interactionColumnName g1 g2 ∈ t.colNames := by
    simpa using hnc
  have hfind : t.cols.find?
      (fun c => c.1 == interactionColumnName g1 g2) = none := by
    apply List.find?_eq_none.mpr
    intro c hc hbeq
    apply hmem
    have hc1 : c.1 = interactionColumnName g1 g2 := by
      simpa using hbeq
    rw [← hc1]
    exact List.mem_map_of_mem Prod.fst hc
  have hcond : ¬ (t.colNames.contains (interactionColumnName g1 g2) = true) := by
    simpa using hmem
  refine ⟨rfl, ?_, ?_⟩
  · rw [Table.setCol, if_neg hcond]
    simp [Table.colNames]
  · rw [Table.setCol, if_neg hcond, Table.col]
    simp only [List.find?_append, hfind, Option.none_or]
    simp [List.find?]

/-- C7 witness: a non-colliding derived column on a concrete table. -/
theorem interaction_groupkey_derived_witness :
    interactionValues [Value.str "x"] [Value.str "y"] =
      List.zipWith (fun a b => Value.str (a.pyStr ++ "_" ++ b.pyStr))
        [Value.str "x"] [Value.str "y"] ∧
    (exTable.setCol (interactionColumnName "a" "b")
        (interactionValues [Value.str "x"] [Value.str "y"])).colNames
      = exTable.colNames ++ [interactionColumnName "a" "b"] ∧
    (exTable.setCol (interactionColumnName "a" "b")
        (interactionValues [Value.str "x"] [Value.str "y"])).col
      (interactionColumnName "a" "b") =
        some (interactionValues [Value.str "x"] [Value.str "y"]) :=
  interaction_groupkey_derived exTable "a" "b"
    [Value.str "x"] [Value.str "y"] rfl

/-! ## C8: missing-column error kind -/

/-- C8 counterexample: requesting the absent grouping column `missing`
makes `anova1way` fail with the formula-evaluation (patsy) error, which is
not the spec's `ColumnNotFound`. -/
theorem anova1way_missing_column_error_kind :
    (anova1way exTable "missing" "v" exExtern1).ret =
      .error (.patsyError "missing") ∧
    (PyErr.patsyError "missing").isColumnNotFound = false :=
  ⟨rfl, rfl⟩

/-- C8 (amended): when the grouping or value column is absent,
`anova1way` fails with an uncaught generic library error (the
formula-evaluation error raised through `ols`), never with a dedicated
`ColumnNotFound` error — no code path constructs one. -/
theorem anova1way_missing_column_generic_error (t : Table) (g v : String)
    (ext : Extern1) (h : t.col g = none ∨ t.col v = none) :
    ∃ e, (anova1way t g v ext).ret = .error e ∧
      e.isColumnNotFound = false := by
  cases hv : t.col v with
  | none => exact ⟨.patsyError v, by simp [anova1way, hv], rfl⟩
  | some vs =>
    rcases h with h | h
    · exact ⟨.patsyError g, by simp [anova1way, hv, h], rfl⟩
    · rw [h] at hv; cases hv

/-- C8 witness: the amended claim at the concrete missing column. -/
theorem anova1way_missing_column_generic_error_witness :
    ∃ e, (anova1way exTable "missing" "v" exExtern1).ret = .error e ∧
      e.isColumnNotFound = false :=
  anova1way_missing_column_generic_error exTable "missing" "v" exExtern1
    (Or.inl rfl)

end CsvStats
